import Mathlib

set_option autoImplicit false

/-!
Shallow embedding of the AI-composer Chrome extension's context-memory
logic: the content script `src/unnamed/part_000` (class `MessageComposer`)
and the background worker `src/extension/background.js`.  The FastAPI/Neo4j
backend the extension talks to is not part of the sources; where a claim is
decided by that backend the corresponding definition is modelled from the
spec and marked as such.
-/

namespace AIComposer

/-! ## Context scraping (content script, `scrapeLinkedInContext` /
`scrapeGmailContext`) -/

/-- JavaScript `String.prototype.trim`: strip whitespace from both ends
(structurally recursive so that concrete instances evaluate). -/
def jsTrim (s : String) : String :=
  ⟨((s.data.dropWhile Char.isWhitespace).reverse.dropWhile
      Char.isWhitespace).reverse⟩

/-- A message object pushed by the scraping loop:
`{ text, is_outgoing, timestamp: new Date().toISOString() }`. -/
structure ScrapedMsg where
  text : String
  is_outgoing : Bool
  timestamp : String
deriving DecidableEq, Repr

/-- A candidate message element of the thread, as the loop sees it: the
inner text element (`.msg-s-event-listitem__body` resp. `.a3s`) may be
absent (`bodyText = none`), and `outgoing` is the boolean the source
computes from the DOM (`classList.contains('msg-s-message-group--outgoing')`
resp. the `fromEl` text containing `me`). -/
structure MsgElement where
  bodyText : Option String
  outgoing : Bool
deriving DecidableEq, Repr

/-- The per-element body of the scraping loop: read the text element's inner
text, trim it, and keep the message only when the trimmed text is
nonempty. -/
def extractMsg (now : String) (el : MsgElement) : Option ScrapedMsg :=
  match el.bodyText with
  | none => none
  | some s =>
      let t := jsTrim s
      if t = "" then none else some ⟨t, el.outgoing, now⟩

/-- `xs.slice(-n)`: the last `n` elements of `xs`, in order. -/
def takeLast {α : Type} (n : Nat) (xs : List α) : List α :=
  xs.drop (xs.length - n)

/-- One iteration of the scraping loop: either the element is read
successfully, or touching the DOM raises an exception. -/
inductive ScrapeStep where
  | ok (el : MsgElement)
  | fault (e : String)
deriving Repr

/-- The unguarded loop: messages accumulate in the outer `messages` array;
a DOM exception aborts the loop carrying the messages already pushed. -/
def scrapeLoop (now : String) (acc : List ScrapedMsg) :
    List ScrapeStep → Except (String × List ScrapedMsg) (List ScrapedMsg)
  | [] => .ok acc.reverse
  | .fault e :: _ => .error (e, acc.reverse)
  | .ok el :: rest =>
      match extractMsg now el with
      | some m => scrapeLoop now (m :: acc) rest
      | none => scrapeLoop now acc rest

/-- `scrapeLinkedInContext` / `scrapeGmailContext` (both have this exact
control structure): visit the last five thread elements (`.slice(-5)`);
any exception is caught (`console.warn`) and the `messages` collected so
far are returned. -/
def scrapeContext (now : String) (steps : List ScrapeStep) : List ScrapedMsg :=
  match scrapeLoop now [] (takeLast 5 steps) with
  | .ok msgs => msgs
  | .error (_, msgs) => msgs

/-- The elements the loop actually reads: the successful steps before the
first exception. -/
def stepsBefore : List ScrapeStep → List MsgElement
  | [] => []
  | .fault _ :: _ => []
  | .ok el :: rest => el :: stepsBefore rest

/-- Either branch of the caught loop holds the messages extracted from the
elements read before the first fault. -/
theorem scrapeLoop_spec (now : String) (steps : List ScrapeStep)
    (acc : List ScrapedMsg) :
    (match scrapeLoop now acc steps with
     | .ok msgs => msgs
     | .error (_, msgs) => msgs) =
      acc.reverse ++ (stepsBefore steps).filterMap (extractMsg now) := by
  induction steps generalizing acc with
  | nil => simp [scrapeLoop, stepsBefore]
  | cons s rest ih =>
      cases s with
      | fault e => simp [scrapeLoop, stepsBefore]
      | ok el =>
          cases h : extractMsg now el with
          | none => simp [scrapeLoop, stepsBefore, h, ih]
          | some m => simp [scrapeLoop, stepsBefore, h, ih]

theorem scrapeContext_eq (now : String) (steps : List ScrapeStep) :
    scrapeContext now steps =
      (stepsBefore (takeLast 5 steps)).filterMap (extractMsg now) := by
  have h := scrapeLoop_spec now (takeLast 5 steps) []
  simpa [scrapeContext] using h

theorem stepsBefore_length_le (steps : List ScrapeStep) :
    (stepsBefore steps).length ≤ steps.length := by
  induction steps with
  | nil => simp [stepsBefore]
  | cons s rest ih =>
      cases s with
      | fault e => simp [stepsBefore]
      | ok el => simpa [stepsBefore] using Nat.succ_le_succ ih

theorem takeLast_length_le {α : Type} (n : Nat) (xs : List α) :
    (takeLast n xs).length ≤ n := by
  simp [takeLast]
  omega

theorem stepsBefore_map_ok (els : List MsgElement) :
    stepsBefore (els.map ScrapeStep.ok) = els := by
  induction els with
  | nil => simp [stepsBefore]
  | cons el rest ih => simp [stepsBefore, ih]

theorem takeLast_map {α β : Type} (f : α → β) (n : Nat) (xs : List α) :
    takeLast n (xs.map f) = (takeLast n xs).map f := by
  simp [takeLast, List.map_drop]

/-! ## Deadline race (content script, `handleRewrite` step 3) -/

/-- The scraping deadline hard-coded in `handleRewrite`: the timeout branch
of the race fires after 1000 ms. -/
def scrapeDeadlineMillis : Nat := 1000

/-- The outcome of
`Promise.race([contextPromise, timeout(deadline).then(() => [])])`:
`arrival` is the instant the scraping promise settles (`none` if it never
settles), `value` its result.  The race yields the scraped context iff the
promise settles no later than the timer (the promise is listed first, so it
wins a tie); otherwise the timeout branch resolves with `[]` at `deadline`.
The second component is the instant the race settles. -/
def raceContext (deadline : Nat) (arrival : Option Nat)
    (value : List ScrapedMsg) : List ScrapedMsg × Nat :=
  match arrival with
  | none => ([], deadline)
  | some t => if t ≤ deadline then (value, t) else ([], deadline)

/-- Modelled from the spec: the ContextBundle's `contextUsed` flag — "true
iff at least one retrieved node contributed text".  The assembling backend
behind `/api/rewrite` is not part of the extension sources. -/
def contextUsed (slice : List ScrapedMsg) : Bool :=
  slice.any fun m => m.text != ""

/-! ## Stored-message retrieval (spec-modelled: backend store) -/

/-- An InteractionMessage node stored in the graph for one contact. -/
structure StoredMsg where
  id : Nat
  text : String
  is_outgoing : Bool
  occurredAt : Nat
deriving DecidableEq, Repr

/-- Newest-first ordering on stored messages. -/
def newestFirst (a b : StoredMsg) : Prop := b.occurredAt ≤ a.occurredAt

instance : DecidableRel newestFirst := fun _ _ => Nat.decLe _ _

instance : IsTotal StoredMsg newestFirst :=
  ⟨fun a b => (Nat.le_total b.occurredAt a.occurredAt)⟩

instance : IsTrans StoredMsg newestFirst :=
  ⟨fun _ _ _ h h' => Nat.le_trans h' h⟩

/-- Modelled from the spec: the backend's `queryRecentMessages` — "query the
most recent `maxMessages` InteractionMessage nodes for the contact ...
ordered newest-first then reversed for chronological presentation".  The
store layer behind `/api/rewrite` is not part of the extension sources. -/
def queryRecentMessages (msgs : List StoredMsg) (maxMessages : Nat) :
    List StoredMsg :=
  ((List.insertionSort newestFirst msgs).take maxMessages).reverse

/-- The retrieved slice is sorted oldest-to-newest. -/
theorem queryRecentMessages_chronological (msgs : List StoredMsg)
    (maxMessages : Nat) :
    (queryRecentMessages msgs maxMessages).Pairwise
      (fun a b => a.occurredAt ≤ b.occurredAt) := by
  have hsorted : (List.insertionSort newestFirst msgs).Pairwise newestFirst :=
    List.sorted_insertionSort newestFirst msgs
  have htake : ((List.insertionSort newestFirst msgs).take
      maxMessages).Pairwise newestFirst :=
    hsorted.sublist (List.take_sublist _ _)
  rw [queryRecentMessages, List.pairwise_reverse]
  exact htake.imp (fun h => h)

/-- C1: if context retrieval does not settle by the deadline, the race
resolves to the empty context slice, the assembled `contextUsed` flag is
`false`, no error reaches the caller (the race resolves to a value by
construction), and the compose step is not blocked past the deadline: the
race settles no later than `deadline`. -/
theorem rewrite_deadline_empty_context (deadline : Nat) (arrival : Option Nat)
    (value : List ScrapedMsg) (h : ∀ t, arrival = some t → deadline < t) :
    raceContext deadline arrival value = ([], deadline) ∧
    contextUsed (raceContext deadline arrival value).1 = false ∧
    (raceContext deadline arrival value).2 ≤ deadline := by
  cases arrival with
  | none => exact ⟨rfl, rfl, Nat.le_refl _⟩
  | some t =>
      have ht := h t rfl
      have : ¬ t ≤ deadline := Nat.not_le.mpr ht
      refine ⟨?_, ?_, ?_⟩ <;> simp [raceContext, this, contextUsed]

/-- Witness: a retrieval that would settle at 1500 ms against the source's
1000 ms deadline is discarded — the race yields `[]` at the deadline and
`contextUsed` is `false`. -/
theorem rewrite_deadline_empty_context_witness :
    raceContext scrapeDeadlineMillis (some 1500)
        [⟨"hello", true, "ts"⟩] = ([], scrapeDeadlineMillis) ∧
    contextUsed (raceContext scrapeDeadlineMillis (some 1500)
        [⟨"hello", true, "ts"⟩]).1 = false ∧
    (raceContext scrapeDeadlineMillis (some 1500)
        [⟨"hello", true, "ts"⟩]).2 ≤ scrapeDeadlineMillis :=
  rewrite_deadline_empty_context scrapeDeadlineMillis (some 1500)
    [⟨"hello", true, "ts"⟩] (fun t ht => by cases ht; decide)

/-- C4: retrieval returns at most `maxMessages` messages (the source scrape
is additionally hard-capped at 5 by `.slice(-5)`), presented oldest-to-newest;
for stored messages at timestamps 1 < 2 < 3 and `maxMessages = 2` the result
is exactly the t2, t3 pair in chronological order; and the fault-free scrape
returns exactly the extraction of the last five thread elements in page
order. -/
theorem retrieval_recent_bounded_chronological :
    (∀ (msgs : List StoredMsg) (maxMessages : Nat),
        (queryRecentMessages msgs maxMessages).length ≤ maxMessages) ∧
    (∀ (msgs : List StoredMsg) (maxMessages : Nat),
        (queryRecentMessages msgs maxMessages).Pairwise
          (fun a b => a.occurredAt ≤ b.occurredAt)) ∧
    queryRecentMessages
        [⟨1, "t1", true, 1⟩, ⟨2, "t2", false, 2⟩, ⟨3, "t3", true, 3⟩] 2 =
      [⟨2, "t2", false, 2⟩, ⟨3, "t3", true, 3⟩] ∧
    (∀ (now : String) (steps : List ScrapeStep),
        (scrapeContext now steps).length ≤ 5) ∧
    (∀ (now : String) (els : List MsgElement),
        scrapeContext now (els.map ScrapeStep.ok) =
          (takeLast 5 els).filterMap (extractMsg now)) := by
  refine ⟨?_, ?_, ?_, ?_, ?_⟩
  · intro msgs maxMessages
    simp [queryRecentMessages]
  · intro msgs maxMessages
    exact queryRecentMessages_chronological msgs maxMessages
  · decide
  · intro now steps
    rw [scrapeContext_eq]
    calc ((stepsBefore (takeLast 5 steps)).filterMap (extractMsg now)).length
        ≤ (stepsBefore (takeLast 5 steps)).length :=
          List.length_filterMap_le _ _
      _ ≤ (takeLast 5 steps).length := stepsBefore_length_le _
      _ ≤ 5 := takeLast_length_le 5 steps
  · intro now els
    rw [scrapeContext_eq, takeLast_map, stepsBefore_map_ok]

/-! ## Sidebar chat requests (content script, `initSidebar`) and session
lanes -/

/-- The `data` payload of `chrome.runtime.sendMessage({action: 'chat', ...})`
built by the sidebar send buttons. -/
structure ChatRequest where
  question : String
  platform : Option String
  recipient : Option String
  current_url : String
  session_id : Option String
deriving DecidableEq, Repr

/-- The request built by the `summarizer-send` branch of `initSidebar`:
question, current URL and the explicit `session_id: 'summarizer'`. -/
def summarizerSendRequest (question url : String) : ChatRequest :=
  { question := question
  , platform := none
  , recipient := none
  , current_url := url
  , session_id := some "summarizer" }

/-- The request built by the `chat-send` branch of `initSidebar`: question,
platform, recipient and current URL, with no explicit session id. -/
def chatSendRequest (question platform recipient url : String) : ChatRequest :=
  { question := question
  , platform := some platform
  , recipient := some recipient
  , current_url := url
  , session_id := none }

/-- A conversation lane: either the default lane keyed by
`(platform, counterpart)` or an explicitly tagged lane. -/
inductive Lane where
  | counterpart (platform counterpart : String)
  | tagged (tag : String)
deriving DecidableEq, Repr

/-- Modelled from the spec: the Session Router — "An explicit tag (e.g.
\"summarizer\") always wins and produces a lane independent of any
counterpart-keyed lane".  The routing backend behind `/api/chat` is not part
of the extension sources. -/
def routeLane (platform counterpart : String) (tag : Option String) : Lane :=
  match tag with
  | some t => .tagged t
  | none => .counterpart platform counterpart

/-- Modelled from the spec: `ingest` appends a chat text to one lane of the
store. -/
def ingestLane (store : List (Lane × String)) (l : Lane) (text : String) :
    List (Lane × String) :=
  (l, text) :: store

/-- Modelled from the spec: retrieval reads only its own lane, "never mixing
lanes". -/
def retrieveLane (store : List (Lane × String)) (l : Lane) : List String :=
  (store.filter fun e => decide (e.1 = l)).map Prod.snd

/-- C2: every `summarizer-send` request carries the explicit session tag
`"summarizer"` (while `chat-send` carries none and is routed by counterpart);
the tagged lane is distinct from every counterpart-keyed lane; and retrieval
is lane-isolated both ways: ingesting into a counterpart lane leaves
summarizer-lane retrieval unchanged, and conversely. -/
theorem summarizer_lane_isolated (question url platform counterpart q2 p2 r2
    url2 text : String) (store : List (Lane × String)) :
    (summarizerSendRequest question url).session_id = some "summarizer" ∧
    (chatSendRequest q2 p2 r2 url2).session_id = none ∧
    routeLane platform counterpart (some "summarizer") ≠
      routeLane platform counterpart none ∧
    retrieveLane (ingestLane store (routeLane platform counterpart none) text)
        (Lane.tagged "summarizer") =
      retrieveLane store (Lane.tagged "summarizer") ∧
    retrieveLane (ingestLane store (Lane.tagged "summarizer") text)
        (routeLane platform counterpart none) =
      retrieveLane store (routeLane platform counterpart none) := by
  refine ⟨rfl, rfl, by simp [routeLane], ?_, ?_⟩
  · simp [retrieveLane, ingestLane, routeLane]
  · simp [retrieveLane, ingestLane, routeLane]

/-! ## Ingestion dedupe (spec-modelled: backend store-conversation handler) -/

/-- An ingestion event, carrying exactly the dedupe key
`(contactKey, text, direction)`. -/
structure MsgEvent where
  contactKey : String
  text : String
  direction : Bool
deriving DecidableEq, Repr

/-- Modelled from the spec: the dedupe window — "the most recent N stored
messages for that contact". -/
def dedupeWindow : Nat := 5

/-- Two events agree on the dedupe key `(contactKey, text, direction)`. -/
def sameKey (a b : MsgEvent) : Bool :=
  a.contactKey == b.contactKey && a.text == b.text && a.direction == b.direction

/-- The most recent stored messages for one contact (the store list is
newest-first). -/
def recentFor (store : List MsgEvent) (ck : String) : List MsgEvent :=
  (store.filter fun m => m.contactKey == ck).take dedupeWindow

/-- Modelled from the spec: the Ingestion Pipeline — "Duplicate ingestion of
the same logical event ... must not create duplicate nodes: dedupe by
`(contactKey, text, direction)` within a short trailing window ..., else
accept as new".  The ingesting backend behind `/api/store-conversation` is
not part of the extension sources. -/
def ingestEvent (store : List MsgEvent) (e : MsgEvent) : List MsgEvent :=
  if (recentFor store e.contactKey).any (sameKey e) then store
  else e :: store

theorem sameKey_self (e : MsgEvent) : sameKey e e = true := by
  simp [sameKey]

theorem ingestEvent_fresh (store : List MsgEvent) (e : MsgEvent)
    (h : (recentFor store e.contactKey).any (sameKey e) = false) :
    ingestEvent store e = e :: store := by
  simp [ingestEvent, h]

theorem ingestEvent_cons_self_absorbed (store : List MsgEvent) (e : MsgEvent) :
    ingestEvent (e :: store) e = e :: store := by
  have hmem : (recentFor (e :: store) e.contactKey).any (sameKey e) = true := by
    have : e.contactKey == e.contactKey := by simp
    simp [recentFor, dedupeWindow, this, List.filter_cons, List.any_cons,
      sameKey_self]
  simp [ingestEvent, hmem]

/-- C3: ingesting the same logical event `(contactKey, text, direction)`
twice is an idempotent no-op (the first copy, just stored, heads the trailing
window), and when the store held no matching message before, the double
ingestion leaves exactly one matching stored message, not two. -/
theorem ingest_duplicate_idempotent (store : List MsgEvent) (e : MsgEvent) :
    ingestEvent (ingestEvent store e) e = ingestEvent store e ∧
    (store.countP (sameKey e) = 0 →
      (ingestEvent (ingestEvent store e) e).countP (sameKey e) = 1) := by
  constructor
  · by_cases h : (recentFor store e.contactKey).any (sameKey e)
    · simp [ingestEvent, h]
    · rw [ingestEvent_fresh store e (by simpa using h)]
      exact ingestEvent_cons_self_absorbed store e
  · intro hc
    have hnone : ∀ m ∈ store, ¬ sameKey e m = true := by
      intro m hm
      exact (List.countP_eq_zero.mp hc) m hm
    have hany : (recentFor store e.contactKey).any (sameKey e) = false := by
      rw [List.any_eq_false]
      intro m hm
      exact hnone m (List.mem_of_mem_filter (List.mem_of_mem_take hm))
    rw [ingestEvent_fresh store e hany, ingestEvent_cons_self_absorbed]
    rw [List.countP_cons]
    simp [sameKey_self, List.countP_eq_zero.mpr hnone]

/-- Witness: for the fresh event `(linkedin::John Doe, hi, outgoing)` over
the empty store, ingesting twice equals ingesting once and leaves exactly
one matching stored message. -/
theorem ingest_duplicate_idempotent_witness :
    ingestEvent (ingestEvent [] ⟨"linkedin::John Doe", "hi", true⟩)
        ⟨"linkedin::John Doe", "hi", true⟩ =
      ingestEvent [] ⟨"linkedin::John Doe", "hi", true⟩ ∧
    (ingestEvent (ingestEvent [] ⟨"linkedin::John Doe", "hi", true⟩)
        ⟨"linkedin::John Doe", "hi", true⟩).countP
      (sameKey ⟨"linkedin::John Doe", "hi", true⟩) = 1 :=
  ⟨(ingest_duplicate_idempotent [] ⟨"linkedin::John Doe", "hi", true⟩).1,
   (ingest_duplicate_idempotent [] ⟨"linkedin::John Doe", "hi", true⟩).2
     (by simp)⟩

/-- C5: the scraping read path is total — for every input, also one whose
element reads raise exceptions, `scrapeContext` returns the plain list of
messages collected before the first fault (the `try/catch` absorbs the
exception), never an error; concretely, a fault after the first element
yields exactly that element's message. -/
theorem scrape_errors_absorbed :
    (∀ (now : String) (steps : List ScrapeStep),
        scrapeContext now steps =
          (stepsBefore (takeLast 5 steps)).filterMap (extractMsg now)) ∧
    scrapeContext "ts"
        [ScrapeStep.ok ⟨some "a", true⟩, ScrapeStep.fault "boom",
         ScrapeStep.ok ⟨some "b", false⟩] = [⟨"a", true, "ts"⟩] := by
  refine ⟨scrapeContext_eq, ?_⟩
  decide

/-! ## Profile capture (content script, `scrapeLinkedInProfile`) -/

/-- An experience list item as found in the DOM: the three sub-selectors may
each come back empty. -/
structure ExpItem where
  title : Option String
  company : Option String
  duration : Option String

/-- An entry pushed onto the `experiences` array. -/
structure ExpEntry where
  title : String
  company : String
  duration : String
deriving DecidableEq, Repr

/-- An education list item as found in the DOM. -/
structure EduItem where
  school : Option String
  degree : Option String
  years : Option String

/-- An entry pushed onto the `education` array. -/
structure EduEntry where
  school : String
  degree : String
  years : String
deriving DecidableEq, Repr

/-- The body of the experience loop: an item is pushed only when its title
element exists; missing company/duration become `''`. -/
def scrapeExpItem (i : ExpItem) : Option ExpEntry :=
  i.title.map fun t =>
    ⟨jsTrim t, (i.company.map jsTrim).getD "", (i.duration.map jsTrim).getD ""⟩

/-- The experience loop: `expItems.forEach` guarded by `index < 5`. -/
def scrapeExperience (items : List ExpItem) : List ExpEntry :=
  (items.take 5).filterMap scrapeExpItem

/-- The body of the education loop: an item is pushed only when its school
element exists. -/
def scrapeEduItem (i : EduItem) : Option EduEntry :=
  i.school.map fun s =>
    ⟨jsTrim s, (i.degree.map jsTrim).getD "", (i.years.map jsTrim).getD ""⟩

/-- The education loop: `eduItems.forEach` guarded by `index < 3`. -/
def scrapeEducation (items : List EduItem) : List EduEntry :=
  (items.take 3).filterMap scrapeEduItem

/-- The body of the skills loop: push the trimmed text when it is nonempty
and not already present (`skillText && !skills.includes(skillText)`). -/
def addSkill (skills : List String) (item : String) : List String :=
  let t := jsTrim item
  if t ≠ "" ∧ ¬ skills.contains t then skills ++ [t] else skills

/-- The skills loop: `skillItems.forEach` guarded by `index < 10`. -/
def scrapeSkills (items : List String) : List String :=
  (items.take 10).foldl addSkill []

/-- `data.<field>` is set only when the collected list is nonempty. -/
def listField {α : Type} (l : List α) : Option (List α) :=
  if l.isEmpty then none else some l

/-- The structured sub-lists of the `profile_data` object built by
`scrapeLinkedInProfile` (the scalar fields do not matter to the cap claim
and are omitted). -/
structure ProfileData where
  experience : Option (List ExpEntry)
  education : Option (List EduEntry)
  skills : Option (List String)

/-- `scrapeLinkedInProfile`, restricted to the structured sub-lists. -/
def scrapeLinkedInProfile (expItems : List ExpItem) (eduItems : List EduItem)
    (skillItems : List String) : ProfileData :=
  { experience := listField (scrapeExperience expItems)
  , education := listField (scrapeEducation eduItems)
  , skills := listField (scrapeSkills skillItems) }

theorem foldl_addSkill_length_le (items : List String) (acc : List String) :
    (items.foldl addSkill acc).length ≤ acc.length + items.length := by
  induction items generalizing acc with
  | nil => simp
  | cons x rest ih =>
      have hstep : (addSkill acc x).length ≤ acc.length + 1 := by
        simp only [addSkill]
        split
        · simp
        · simp
      calc ((x :: rest).foldl addSkill acc).length
          = (rest.foldl addSkill (addSkill acc x)).length := by simp
        _ ≤ (addSkill acc x).length + rest.length := ih _
        _ ≤ acc.length + 1 + rest.length := by omega
        _ = acc.length + (x :: rest).length := by simp; omega

theorem listField_getD_eq {α : Type} (l : List α) :
    (listField l).getD [] = l := by
  by_cases h : l.isEmpty
  · simp [listField, h, List.isEmpty_iff.mp h]
  · simp [listField, h]

/-- C6: every captured profile's structured sub-lists are capped — at most
5 experience entries, 3 education entries and 10 skills, whatever the page
holds. -/
theorem profile_sublists_capped (expItems : List ExpItem)
    (eduItems : List EduItem) (skillItems : List String) :
    ((scrapeLinkedInProfile expItems eduItems skillItems).experience.getD
        []).length ≤ 5 ∧
    ((scrapeLinkedInProfile expItems eduItems skillItems).education.getD
        []).length ≤ 3 ∧
    ((scrapeLinkedInProfile expItems eduItems skillItems).skills.getD
        []).length ≤ 10 := by
  refine ⟨?_, ?_, ?_⟩
  · rw [scrapeLinkedInProfile]
    simp only [listField_getD_eq]
    calc (scrapeExperience expItems).length
        ≤ (expItems.take 5).length := List.length_filterMap_le _ _
      _ ≤ 5 := by simp
  · rw [scrapeLinkedInProfile]
    simp only [listField_getD_eq]
    calc (scrapeEducation eduItems).length
        ≤ (eduItems.take 3).length := List.length_filterMap_le _ _
      _ ≤ 3 := by simp
  · rw [scrapeLinkedInProfile]
    simp only [listField_getD_eq]
    calc (scrapeSkills skillItems).length
        ≤ 0 + (skillItems.take 10).length :=
          foldl_addSkill_length_le _ []
      _ ≤ 10 := by simp

/-! ## Rewrite request path (background worker `handleRewriteMessage` and
content script `handleRewrite` steps 4–7) -/

/-- The parsed JSON body of a successful `/api/rewrite` response. -/
structure RewriteResponseBody where
  rewritten_message : String
  context_used : Bool
deriving DecidableEq, Repr

/-- What the `fetch` to `/api/rewrite` did, as the background worker sees
it: an OK response with a parsed body, a non-OK HTTP status, or a thrown
network error. -/
inductive FetchOutcome where
  | ok (body : RewriteResponseBody)
  | httpError (statusText : String)
  | netError (message : String)
deriving Repr

/-- `handleRewriteMessage` (src/extension/background.js): on `!response.ok`
it throws `new Error('API request failed: ' + statusText)`; an error thrown
by `fetch` itself is logged and rethrown unchanged; otherwise the parsed
body is returned. -/
def handleRewriteMessage (o : FetchOutcome) : Except String RewriteResponseBody :=
  match o with
  | .ok b => .ok b
  | .httpError st => .error ("API request failed: " ++ st)
  | .netError m => .error m

/-- The `sendResponse` payload built by the background listener for
`rewriteMessage`: `{success: true, data}` on success,
`{success: false, error: error.message}` on failure. -/
structure BgResponse where
  success : Bool
  error : Option String
  rewritten : Option String
deriving DecidableEq, Repr

def bgRespond (r : Except String RewriteResponseBody) : BgResponse :=
  match r with
  | .ok b => { success := true, error := none,
               rewritten := some b.rewritten_message }
  | .error m => { success := false, error := some m, rewritten := none }

/-- The alert `handleRewrite` raises once the background response arrives:
on failure `alert('Error: ' + errorMsg)` with
`errorMsg = response.error || 'Unknown error'`; on success no alert. -/
def rewriteAlert (resp : BgResponse) : Option String :=
  if resp.success then none
  else some ("Error: " ++ resp.error.getD "Unknown error")

/-- Effect of the spawned `storeMessage(...).catch(console.warn)` call on
the user-visible surface: a store failure produces only a warn-log entry —
never an alert, never a thrown error. -/
def storeMessageEffect (storeOutcome : Except String Unit) :
    Option String × List String :=
  match storeOutcome with
  | .ok _ => (none, [])
  | .error e => (none, ["Failed to store conversation: " ++ e])

/-- Every alert one `handleRewrite` run can show after a nonblank draft:
the response-failure alert; scraping contributes none (its exceptions are
absorbed, see `scrapeContext`) and the background store contributes none. -/
def composeAlerts (resp : BgResponse) (storeOutcome : Except String Unit) :
    List String :=
  (rewriteAlert resp).toList ++ ((storeMessageEffect storeOutcome).1).toList

/-- C7: generation-layer errors are the only ones surfaced — the background
worker propagates the thrown message verbatim in `response.error`, and the
single alert the user sees carries exactly that message (labelled
`Error: `); on a successful generation no alert is shown regardless of any
storage failure, and scraping failures never alert (they are absorbed into
the empty context). -/
theorem generation_errors_only_surfaced (o : FetchOutcome)
    (storeOutcome : Except String Unit) :
    (∀ m, handleRewriteMessage o = .error m →
        (bgRespond (handleRewriteMessage o)).error = some m ∧
        composeAlerts (bgRespond (handleRewriteMessage o)) storeOutcome =
          ["Error: " ++ m]) ∧
    (∀ b, handleRewriteMessage o = .ok b →
        composeAlerts (bgRespond (handleRewriteMessage o)) storeOutcome =
          []) := by
  constructor
  · intro m hm
    rw [hm]
    cases storeOutcome <;>
      simp [bgRespond, composeAlerts, rewriteAlert, storeMessageEffect]
  · intro b hb
    rw [hb]
    cases storeOutcome <;>
      simp [bgRespond, composeAlerts, rewriteAlert, storeMessageEffect]

/-- Witness: a 502 from the generation API surfaces exactly the thrown
message as the user alert even while the background store also failed, and
a successful generation alerts nothing despite the failing store. -/
theorem generation_errors_only_surfaced_witness :
    ((bgRespond (handleRewriteMessage (.httpError "Bad Gateway"))).error =
        some "API request failed: Bad Gateway" ∧
      composeAlerts (bgRespond (handleRewriteMessage (.httpError
          "Bad Gateway"))) (.error "neo4j down") =
        ["Error: API request failed: Bad Gateway"]) ∧
    composeAlerts (bgRespond (handleRewriteMessage (.ok ⟨"Hello!", true⟩)))
        (.error "neo4j down") = [] :=
  ⟨(generation_errors_only_surfaced (.httpError "Bad Gateway")
        (.error "neo4j down")).1
      "API request failed: Bad Gateway" rfl,
   (generation_errors_only_surfaced (.ok ⟨"Hello!", true⟩)
        (.error "neo4j down")).2 ⟨"Hello!", true⟩ rfl⟩

/-- The success branch of `handleRewrite` (steps 5–7): the rewritten text is
written into the input and kept as the latest draft, no alert is raised, and
the conversation store is spawned, not awaited — its outcome reaches only
the warn log (and only when `autoStore` is set). -/
structure ComposeResult where
  finalText : String
  latestDraft : String
  alert : Option String
  warnLogs : List String
deriving DecidableEq, Repr

def composeSuccess (rewritten : String) (autoStore : Bool)
    (storeOutcome : Except String Unit) : ComposeResult :=
  { finalText := rewritten
  , latestDraft := rewritten
  , alert := none
  , warnLogs := if autoStore then (storeMessageEffect storeOutcome).2 else [] }

/-- C8: the compose flow is fire-and-forget with respect to the store: the
final text and the (absent) alert are identical whatever the pending store
does — a store failure neither blocks nor fails the rewrite, it is only
logged. -/
theorem store_fire_and_forget (rewritten : String) (autoStore : Bool)
    (o o' : Except String Unit) :
    (composeSuccess rewritten autoStore o).finalText = rewritten ∧
    (composeSuccess rewritten autoStore o).alert = none ∧
    (composeSuccess rewritten autoStore o).finalText =
      (composeSuccess rewritten autoStore o').finalText ∧
    (composeSuccess rewritten autoStore o).alert =
      (composeSuccess rewritten autoStore o').alert ∧
    (∀ e, o = .error e →
        (composeSuccess rewritten true o).warnLogs =
          ["Failed to store conversation: " ++ e]) := by
  refine ⟨rfl, rfl, rfl, rfl, ?_⟩
  intro e he
  rw [he]
  simp [composeSuccess, storeMessageEffect]

/-- Witness: with the store rejecting, the rewrite still lands the text,
alerts nothing, and logs the failure. -/
theorem store_fire_and_forget_witness :
    (composeSuccess "Hello John" true (.error "timeout")).finalText =
        "Hello John" ∧
    (composeSuccess "Hello John" true (.error "timeout")).alert = none ∧
    (composeSuccess "Hello John" true (.error "timeout")).finalText =
      (composeSuccess "Hello John" true (.ok ())).finalText ∧
    (composeSuccess "Hello John" true (.error "timeout")).alert =
      (composeSuccess "Hello John" true (.ok ())).alert ∧
    (composeSuccess "Hello John" true (.error "timeout")).warnLogs =
      ["Failed to store conversation: timeout"] := by
  have h := store_fire_and_forget "Hello John" true (.error "timeout") (.ok ())
  exact ⟨h.1, h.2.1, h.2.2.1, h.2.2.2.1, h.2.2.2.2 "timeout" rfl⟩

/-! ## Conversation storage guard (background worker,
`handleStoreConversation`) -/

/-- The JSON body POSTed to `/api/store-conversation`. -/
structure StoreConvRequest where
  platform : String
  recipient : String
  message : String
  is_outgoing : Bool
deriving DecidableEq, Repr

/-- What `handleStoreConversation` does: short-circuit with
`{status: 'skipped'}`, or issue the network call with the given body. -/
inductive StoreConvOutcome where
  | skipped
  | posted (req : StoreConvRequest)
deriving DecidableEq, Repr

/-- `handleStoreConversation` (src/extension/background.js): a missing,
empty or whitespace-only message (`!message || !message.trim()`) returns
`skipped` before any fetch; otherwise the message is POSTed. -/
def handleStoreConversation (platform recipient : String)
    (message : Option String) (isOutgoing : Bool) : StoreConvOutcome :=
  match message with
  | none => .skipped
  | some s =>
      if s = "" ∨ jsTrim s = "" then .skipped
      else .posted ⟨platform, recipient, s, isOutgoing⟩

/-- Network calls issued by each outcome. -/
def storeConvNetworkCalls : StoreConvOutcome → Nat
  | .skipped => 0
  | .posted _ => 1

/-- C9: a store-conversation request whose message is absent, empty or
whitespace-only yields `skipped` and makes no network call (so the store is
untouched); conversely every POSTed body carries a non-blank message, so a
message node can only ever be created for a non-blank message. -/
theorem blank_message_skipped (platform recipient : String)
    (message : Option String) (isOutgoing : Bool) :
    ((message = none ∨ ∃ s, message = some s ∧ jsTrim s = "") →
        handleStoreConversation platform recipient message isOutgoing =
          .skipped ∧
        storeConvNetworkCalls
          (handleStoreConversation platform recipient message isOutgoing) =
            0) ∧
    (∀ req,
        handleStoreConversation platform recipient message isOutgoing =
            .posted req →
        jsTrim req.message ≠ "") := by
  constructor
  · intro h
    cases message with
    | none => exact ⟨rfl, rfl⟩
    | some s =>
        rcases h with h | ⟨s', hs', ht⟩
        · cases h
        · cases hs'
          have : s = "" ∨ jsTrim s = "" := Or.inr ht
          simp [handleStoreConversation, storeConvNetworkCalls, this]
  · intro req hreq
    cases message with
    | none => cases hreq
    | some s =>
        by_cases hblank : s = "" ∨ jsTrim s = ""
        · simp [handleStoreConversation, hblank] at hreq
        · simp [handleStoreConversation, hblank] at hreq
          push_neg at hblank
          rw [← hreq]
          exact hblank.2

/-- Witness: a whitespace-only message is skipped with zero network calls,
and a posted body (`hi`) is non-blank. -/
theorem blank_message_skipped_witness :
    (handleStoreConversation "linkedin" "John Doe" (some "   ") true =
        StoreConvOutcome.skipped ∧
      storeConvNetworkCalls
        (handleStoreConversation "linkedin" "John Doe" (some "   ") true) =
          0) ∧
    jsTrim "hi" ≠ "" :=
  ⟨(blank_message_skipped "linkedin" "John Doe" (some "   ") true).1
      (Or.inr ⟨"   ", rfl, by decide⟩),
   (blank_message_skipped "linkedin" "John Doe" (some "hi") true).2
      ⟨"linkedin", "John Doe", "hi", true⟩ (by decide)⟩

/-! ## Usage stats (content script, `updateStats`) -/

/-- `chrome.storage.local`, restricted to the numeric stat counters. -/
abbrev StatStore := String → Option Nat

/-- `chrome.storage.local.get([statName])`, projected to the one key. -/
def statGet (store : StatStore) (key : String) : Option Nat := store key

/-- `chrome.storage.local.set(obj)` with the single-key object
`obj = [statName]: v`. -/
def statSet (store : StatStore) (key : String) (v : Nat) : StatStore :=
  fun k => if k = key then some v else store k

/-- `updateStats` (src/unnamed/part_000): read the one key, default a
missing value to 0 (`stats[statName] || 0`), write the key back
incremented. -/
def updateStats (store : StatStore) (statName : String) : StatStore :=
  statSet store statName ((statGet store statName).getD 0 + 1)

/-- C10: `updateStats statName` sets the counter to its previous value plus
one, a missing counter counting as 0, and leaves every other storage key
unchanged. -/
theorem updateStats_increments_only_target (store : StatStore)
    (statName : String) :
    updateStats store statName statName =
      some ((store statName).getD 0 + 1) ∧
    ∀ k, k ≠ statName → updateStats store statName k = store k := by
  constructor
  · simp [updateStats, statSet, statGet]
  · intro k hk
    simp [updateStats, statSet, statGet, hk]

/-- Witness: over a store holding `messageCount = 4` and nothing else,
`updateStats 'messageCount'` yields 5 there and leaves
`conversationCount` absent. -/
theorem updateStats_increments_only_target_witness :
    updateStats (fun k => if k = "messageCount" then some 4 else none)
        "messageCount" "messageCount" = some 5 ∧
    updateStats (fun k => if k = "messageCount" then some 4 else none)
        "messageCount" "conversationCount" = none :=
  ⟨(updateStats_increments_only_target
      (fun k => if k = "messageCount" then some 4 else none)
      "messageCount").1,
   (updateStats_increments_only_target
      (fun k => if k = "messageCount" then some 4 else none)
      "messageCount").2 "conversationCount" (by decide)⟩

end AIComposer
